import Mathlib

/-!
Verification development for the `web-auto` repository (files
`fingerprints.py` and `main.py`): a shallow embedding in Lean 4 of the
profile generator and of the per-instance runner loop, together with
theorems settling the specification claims.

Randomness is made explicit: every `random.choice`-style call becomes an
index supplied as an argument, so each function is a pure function of the
code's static tables and of those choices.  Floating-point wall-clock
fields (`started_at`, `last_duration`) are not modelled; device scale
factors (all exact multiples of 1/1000 in the tables) are carried as
integer thousandths.
-/

namespace WebAuto

/-! ## Python string helpers

Executable models of the Python string primitives the code relies on:
`str.strip` (ASCII whitespace), `str.splitlines`, slicing `s[:n]`,
substring membership `sub in s`, and `int(s)` parsing.  -/

/-- Whitespace characters stripped by Python `str.strip()` (ASCII range). -/
def isPySpace (c : Char) : Bool :=
  c = ' ' || c = '\t' || c = '\n' || c = '\x0d' || c = '\x0b' || c = '\x0c'

/-- Python `s.strip()`: remove leading and trailing whitespace. -/
def pyStrip (s : String) : String :=
  ⟨((s.data.dropWhile isPySpace).reverse.dropWhile isPySpace).reverse⟩

/-- Line-break characters recognised by Python `str.splitlines`. -/
def isLineBreak (c : Char) : Bool :=
  c = '\n' || c = '\x0d' || c = '\x0b' || c = '\x0c' ||
  c = '\x1c' || c = '\x1d' || c = '\x1e' || c = '\x85' ||
  c = '\u2028' || c = '\u2029'

/-- Worker for `pySplitlines`: `acc` holds the current line, reversed. -/
def splitlinesAux : List Char → List Char → List String
  | [], acc => if acc.isEmpty then [] else [⟨acc.reverse⟩]
  | '\x0d' :: '\n' :: rest, acc => (⟨acc.reverse⟩ : String) :: splitlinesAux rest []
  | c :: rest, acc =>
    if isLineBreak c then (⟨acc.reverse⟩ : String) :: splitlinesAux rest []
    else splitlinesAux rest (c :: acc)

/-- Python `s.splitlines()`: split at line boundaries, `\r\n` counting as one,
with no trailing empty line for a terminating newline. -/
def pySplitlines (s : String) : List String :=
  splitlinesAux s.data []

/-- Python slice `s[:n]`: the first `n` characters. -/
def pyTake (s : String) (n : Nat) : String := ⟨s.data.take n⟩

/-- Python slice `s[-n:]` for `0 < n`: the last `n` characters. -/
def pyTakeRight (s : String) (n : Nat) : String := ⟨(s.data.reverse.take n).reverse⟩

/-- Python `sub in s`: substring containment. -/
def pyContains (s sub : String) : Bool := 1 < (s.splitOn sub).length

/-- Digit-sequence tail of Python `int()` parsing: after an initial digit,
further digits with single underscores allowed between digits. -/
def pyIntDigits : Nat → List Char → Option Nat
  | acc, [] => some acc
  | acc, '_' :: c :: rest =>
    if c.isDigit then pyIntDigits (acc * 10 + (c.toNat - 48)) rest else none
  | acc, c :: rest =>
    if c.isDigit then pyIntDigits (acc * 10 + (c.toNat - 48)) rest else none

/-- Python `int(s)` on ASCII input: strip whitespace, optional sign, then a
nonempty digit sequence (single underscores permitted between digits);
`none` models the `ValueError`. -/
def pyInt (s : String) : Option Int :=
  match (pyStrip s).data with
  | '+' :: c :: rest =>
    if c.isDigit then (pyIntDigits (c.toNat - 48) rest).map Int.ofNat else none
  | '-' :: c :: rest =>
    if c.isDigit then (pyIntDigits (c.toNat - 48) rest).map (fun n => -(n : Int)) else none
  | c :: rest =>
    if c.isDigit then (pyIntDigits (c.toNat - 48) rest).map Int.ofNat else none
  | [] => none

/-- UTF-8 encoding of one character, as byte values (Python `str.encode()`). -/
def utf8Bytes (c : Char) : List Nat :=
  let n := c.toNat
  if n < 128 then [n]
  else if n < 2048 then [192 + n / 64, 128 + n % 64]
  else if n < 65536 then [224 + n / 4096, 128 + (n / 64) % 64, 128 + n % 64]
  else [240 + n / 262144, 128 + (n / 4096) % 64, 128 + (n / 64) % 64, 128 + n % 64]

/-- UTF-8 bytes of a string. -/
def strBytes (s : String) : List Nat := (s.data.map utf8Bytes).flatten

/-! ## MD5 (RFC 1321)

Executable model of `hashlib.md5(...).hexdigest()`, used by the code for
the canvas and audio fingerprints.  Words are `Nat` reduced mod `2^32`. -/

/-- The 64 MD5 sine-derived constants `K`. -/
def md5K : List Nat := [
  0xd76aa478, 0xe8c7b756, 0x242070db, 0xc1bdceee,
  0xf57c0faf, 0x4787c62a, 0xa8304613, 0xfd469501,
  0x698098d8, 0x8b44f7af, 0xffff5bb1, 0x895cd7be,
  0x6b901122, 0xfd987193, 0xa679438e, 0x49b40821,
  0xf61e2562, 0xc040b340, 0x265e5a51, 0xe9b6c7aa,
  0xd62f105d, 0x02441453, 0xd8a1e681, 0xe7d3fbc8,
  0x21e1cde6, 0xc33707d6, 0xf4d50d87, 0x455a14ed,
  0xa9e3e905, 0xfcefa3f8, 0x676f02d9, 0x8d2a4c8a,
  0xfffa3942, 0x8771f681, 0x6d9d6122, 0xfde5380c,
  0xa4beea44, 0x4bdecfa9, 0xf6bb4b60, 0xbebfbc70,
  0x289b7ec6, 0xeaa127fa, 0xd4ef3085, 0x04881d05,
  0xd9d4d039, 0xe6db99e5, 0x1fa27cf8, 0xc4ac5665,
  0xf4292244, 0x432aff97, 0xab9423a7, 0xfc93a039,
  0x655b59c3, 0x8f0ccc92, 0xffeff47d, 0x85845dd1,
  0x6fa87e4f, 0xfe2ce6e0, 0xa3014314, 0x4e0811a1,
  0xf7537e82, 0xbd3af235, 0x2ad7d2bb, 0xeb86d391]

/-- The 64 MD5 per-round left-rotation amounts `S`. -/
def md5S : List Nat := [
  7, 12, 17, 22, 7, 12, 17, 22, 7, 12, 17, 22, 7, 12, 17, 22,
  5,  9, 14, 20, 5,  9, 14, 20, 5,  9, 14, 20, 5,  9, 14, 20,
  4, 11, 16, 23, 4, 11, 16, 23, 4, 11, 16, 23, 4, 11, 16, 23,
  6, 10, 15, 21, 6, 10, 15, 21, 6, 10, 15, 21, 6, 10, 15, 21]

/-- 32-bit left rotation (argument already reduced mod `2^32`). -/
def rotl32 (x s : Nat) : Nat := ((x <<< s) % 4294967296) + (x >>> (32 - s))

/-- `n` as `k` little-endian bytes. -/
def leBytes : Nat → Nat → List Nat
  | 0, _ => []
  | k + 1, n => (n % 256) :: leBytes k (n / 256)

/-- Group little-endian bytes into 32-bit words. -/
def toWordsLE : List Nat → List Nat
  | b0 :: b1 :: b2 :: b3 :: rest =>
    (b0 + b1 * 256 + b2 * 65536 + b3 * 16777216) :: toWordsLE rest
  | _ => []

/-- MD5 padding: append `0x80`, zeros to 56 mod 64, then the bit length as
8 little-endian bytes. -/
def md5pad (msg : List Nat) : List Nat :=
  msg ++ [128] ++ List.replicate ((120 - ((msg.length + 1) % 64)) % 64) 0 ++
    leBytes 8 ((msg.length * 8) % 18446744073709551616)

/-- Split a byte list into 64-byte chunks. -/
def chunksOf64 : List Nat → List (List Nat)
  | [] => []
  | b :: rest => (b :: rest).take 64 :: chunksOf64 ((b :: rest).drop 64)
termination_by l => l.length
decreasing_by simp [List.length_drop]; omega

/-- One of the 64 MD5 rounds on state `(a, b, c, d)` over message words `M`. -/
def md5round (M : List Nat) (st : Nat × Nat × Nat × Nat) (i : Nat) :
    Nat × Nat × Nat × Nat :=
  let a := st.1
  let b := st.2.1
  let c := st.2.2.1
  let d := st.2.2.2
  let fg : Nat × Nat :=
    if i < 16 then ((b &&& c) ||| ((b ^^^ 4294967295) &&& d), i)
    else if i < 32 then ((d &&& b) ||| ((d ^^^ 4294967295) &&& c), (5 * i + 1) % 16)
    else if i < 48 then (b ^^^ c ^^^ d, (3 * i + 5) % 16)
    else (c ^^^ (b ||| (d ^^^ 4294967295)), (7 * i) % 16)
  let f := (fg.1 + a + md5K.getD i 0 + M.getD fg.2 0) % 4294967296
  (d, (b + rotl32 f (md5S.getD i 0)) % 4294967296, b, c)

/-- Process one 16-word chunk, adding the round result into the state. -/
def md5chunk (st : Nat × Nat × Nat × Nat) (M : List Nat) :
    Nat × Nat × Nat × Nat :=
  let r := (List.range 64).foldl (md5round M) st
  ((st.1 + r.1) % 4294967296, (st.2.1 + r.2.1) % 4294967296,
   (st.2.2.1 + r.2.2.1) % 4294967296, (st.2.2.2 + r.2.2.2) % 4294967296)

/-- MD5 digest of a byte list, as 16 bytes. -/
def md5bytes (msg : List Nat) : List Nat :=
  let st := ((chunksOf64 (md5pad msg)).map toWordsLE).foldl md5chunk
    (0x67452301, 0xefcdab89, 0x98badcfe, 0x10325476)
  leBytes 4 st.1 ++ leBytes 4 st.2.1 ++ leBytes 4 st.2.2.1 ++ leBytes 4 st.2.2.2

/-- Lower-case hex digit. -/
def hexDigit (n : Nat) : Char :=
  if n < 10 then Char.ofNat (48 + n) else Char.ofNat (87 + n)

/-- Byte as two lower-case hex digits. -/
def byteHex (b : Nat) : List Char := [hexDigit (b / 16), hexDigit (b % 16)]

/-- Byte list as a lower-case hex string. -/
def bytesToHex (bs : List Nat) : String := ⟨(bs.map byteHex).flatten⟩

/-- `hashlib.md5(s.encode()).hexdigest()`. -/
def md5hex (s : String) : String := bytesToHex (md5bytes (strBytes s))

/-! ## `fingerprints.py`: data model and static tables -/

/-- `DeviceProfile` dataclass; the viewport dict is flattened to width and
height, the scale factor carried as thousandths. -/
structure DeviceProfile where
  user_agent : String
  viewport_width : Nat
  viewport_height : Nat
  device_scale_factor_milli : Nat
  is_mobile : Bool
  has_touch : Bool
  platform : String
  device_memory : Nat
  hardware_concurrency : Nat
  max_touch_points : Nat
deriving DecidableEq, Repr

set_option maxHeartbeats 1600000 in
def DESKTOP_PROFILES : List DeviceProfile := [
  ⟨"Mozilla/5.0 (Windows NT 10.0; Win64; x64) AppleWebKit/537.36 (KHTML, like Gecko) Chrome/127.0.0.0 Safari/537.36", 1920, 1080, 1000, false, false, "Win32", 8, 8, 0⟩,
  ⟨"Mozilla/5.0 (Windows NT 10.0; Win64; x64) AppleWebKit/537.36 (KHTML, like Gecko) Chrome/126.0.0.0 Safari/537.36", 1366, 768, 1000, false, false, "Win32", 4, 4, 0⟩,
  ⟨"Mozilla/5.0 (Windows NT 10.0; Win64; x64) AppleWebKit/537.36 (KHTML, like Gecko) Chrome/125.0.0.0 Safari/537.36", 1440, 900, 1000, false, false, "Win32", 8, 6, 0⟩,
  ⟨"Mozilla/5.0 (Windows NT 10.0; Win64; x64) AppleWebKit/537.36 (KHTML, like Gecko) Chrome/124.0.0.0 Safari/537.36", 1536, 864, 1250, false, false, "Win32", 16, 8, 0⟩,
  ⟨"Mozilla/5.0 (Windows NT 10.0; Win64; x64) AppleWebKit/537.36 (KHTML, like Gecko) Chrome/123.0.0.0 Safari/537.36", 1600, 900, 1000, false, false, "Win32", 8, 4, 0⟩,
  ⟨"Mozilla/5.0 (Windows NT 10.0; Win64; x64) AppleWebKit/537.36 (KHTML, like Gecko) Chrome/122.0.0.0 Safari/537.36", 1280, 720, 1000, false, false, "Win32", 4, 2, 0⟩,
  ⟨"Mozilla/5.0 (Windows NT 10.0; Win64; x64) AppleWebKit/537.36 (KHTML, like Gecko) Chrome/121.0.0.0 Safari/537.36", 1680, 1050, 1000, false, false, "Win32", 16, 6, 0⟩,
  ⟨"Mozilla/5.0 (Windows NT 10.0; Win64; x64) AppleWebKit/537.36 (KHTML, like Gecko) Chrome/120.0.0.0 Safari/537.36", 1768, 992, 1250, false, false, "Win32", 32, 12, 0⟩,
  ⟨"Mozilla/5.0 (Windows NT 10.0; Win64; x64) AppleWebKit/537.36 (KHTML, like Gecko) Chrome/119.0.0.0 Safari/537.36", 2048, 1152, 1500, false, false, "Win32", 16, 8, 0⟩,
  ⟨"Mozilla/5.0 (Windows NT 10.0; Win64; x64) AppleWebKit/537.36 (KHTML, like Gecko) Chrome/118.0.0.0 Safari/537.36", 1344, 840, 1000, false, false, "Win32", 8, 4, 0⟩,
  ⟨"Mozilla/5.0 (Windows NT 11.0; Win64; x64) AppleWebKit/537.36 (KHTML, like Gecko) Chrome/127.0.0.0 Safari/537.36", 2560, 1440, 1250, false, false, "Win32", 16, 12, 0⟩,
  ⟨"Mozilla/5.0 (Windows NT 11.0; Win64; x64) AppleWebKit/537.36 (KHTML, like Gecko) Chrome/126.0.0.0 Safari/537.36", 1920, 1080, 1000, false, false, "Win32", 32, 16, 0⟩,
  ⟨"Mozilla/5.0 (Windows NT 11.0; Win64; x64) AppleWebKit/537.36 (KHTML, like Gecko) Chrome/125.0.0.0 Safari/537.36", 3440, 1440, 1000, false, false, "Win32", 64, 24, 0⟩,
  ⟨"Mozilla/5.0 (Windows NT 11.0; Win64; x64) AppleWebKit/537.36 (KHTML, like Gecko) Chrome/124.0.0.0 Safari/537.36", 1366, 768, 1000, false, false, "Win32", 8, 6, 0⟩,
  ⟨"Mozilla/5.0 (Windows NT 11.0; Win64; x64) AppleWebKit/537.36 (KHTML, like Gecko) Chrome/123.0.0.0 Safari/537.36", 1600, 1024, 1000, false, false, "Win32", 16, 8, 0⟩,
  ⟨"Mozilla/5.0 (Windows NT 10.0; Win64; x64) AppleWebKit/537.36 (KHTML, like Gecko) Chrome/127.0.0.0 Safari/537.36 Edg/127.0.0.0", 1920, 1080, 1000, false, false, "Win32", 8, 8, 0⟩,
  ⟨"Mozilla/5.0 (Windows NT 11.0; Win64; x64) AppleWebKit/537.36 (KHTML, like Gecko) Chrome/126.0.0.0 Safari/537.36 Edg/126.0.0.0", 1728, 1117, 1500, false, false, "Win32", 16, 10, 0⟩,
  ⟨"Mozilla/5.0 (Windows NT 10.0; Win64; x64) AppleWebKit/537.36 (KHTML, like Gecko) Chrome/125.0.0.0 Safari/537.36 Edg/125.0.0.0", 1440, 900, 1000, false, false, "Win32", 8, 4, 0⟩,
  ⟨"Mozilla/5.0 (Windows NT 11.0; Win64; x64) AppleWebKit/537.36 (KHTML, like Gecko) Chrome/124.0.0.0 Safari/537.36 Edg/124.0.0.0", 2560, 1440, 1250, false, false, "Win32", 32, 12, 0⟩,
  ⟨"Mozilla/5.0 (Windows NT 10.0; Win64; x64) AppleWebKit/537.36 (KHTML, like Gecko) Chrome/123.0.0.0 Safari/537.36 Edg/123.0.0.0", 1366, 768, 1000, false, false, "Win32", 4, 4, 0⟩,
  ⟨"Mozilla/5.0 (Windows NT 10.0; Win64; x64; rv:127.0) Gecko/20100101 Firefox/127.0", 1920, 1080, 1000, false, false, "Win32", 8, 8, 0⟩,
  ⟨"Mozilla/5.0 (Windows NT 11.0; Win64; x64; rv:126.0) Gecko/20100101 Firefox/126.0", 1366, 768, 1000, false, false, "Win32", 16, 6, 0⟩,
  ⟨"Mozilla/5.0 (Windows NT 10.0; Win64; x64; rv:125.0) Gecko/20100101 Firefox/125.0", 1440, 900, 1000, false, false, "Win32", 8, 4, 0⟩,
  ⟨"Mozilla/5.0 (Windows NT 11.0; Win64; x64; rv:124.0) Gecko/20100101 Firefox/124.0", 2560, 1440, 1250, false, false, "Win32", 32, 16, 0⟩,
  ⟨"Mozilla/5.0 (Macintosh; Intel Mac OS X 10_15_7) AppleWebKit/537.36 (KHTML, like Gecko) Chrome/127.0.0.0 Safari/537.36", 1728, 1117, 2000, false, false, "MacIntel", 8, 8, 0⟩,
  ⟨"Mozilla/5.0 (Macintosh; Intel Mac OS X 10_14_6) AppleWebKit/537.36 (KHTML, like Gecko) Chrome/126.0.0.0 Safari/537.36", 1680, 1050, 1000, false, false, "MacIntel", 8, 4, 0⟩,
  ⟨"Mozilla/5.0 (Macintosh; Intel Mac OS X 10_15_7) AppleWebKit/537.36 (KHTML, like Gecko) Chrome/125.0.0.0 Safari/537.36", 1440, 900, 2000, false, false, "MacIntel", 32, 16, 0⟩,
  ⟨"Mozilla/5.0 (Macintosh; Intel Mac OS X 10_13_6) AppleWebKit/537.36 (KHTML, like Gecko) Chrome/124.0.0.0 Safari/537.36", 1280, 800, 1000, false, false, "MacIntel", 4, 4, 0⟩,
  ⟨"Mozilla/5.0 (Macintosh; Intel Mac OS X 10_15_7) AppleWebKit/537.36 (KHTML, like Gecko) Chrome/123.0.0.0 Safari/537.36", 2560, 1600, 2000, false, false, "MacIntel", 16, 8, 0⟩,
  ⟨"Mozilla/5.0 (Macintosh; Intel Mac OS X 10_15_7) AppleWebKit/605.1.15 (KHTML, like Gecko) Version/17.6 Safari/605.1.15", 1512, 982, 2000, false, false, "MacIntel", 16, 10, 0⟩,
  ⟨"Mozilla/5.0 (Macintosh; Intel Mac OS X 10_14_6) AppleWebKit/605.1.15 (KHTML, like Gecko) Version/16.6 Safari/605.1.15", 1680, 1050, 1000, false, false, "MacIntel", 8, 4, 0⟩,
  ⟨"Mozilla/5.0 (Macintosh; Intel Mac OS X 10_15_7) AppleWebKit/605.1.15 (KHTML, like Gecko) Version/17.5 Safari/605.1.15", 1440, 900, 2000, false, false, "MacIntel", 32, 16, 0⟩,
  ⟨"Mozilla/5.0 (Macintosh; Intel Mac OS X 10.15; rv:127.0) Gecko/20100101 Firefox/127.0", 1728, 1117, 2000, false, false, "MacIntel", 8, 8, 0⟩,
  ⟨"Mozilla/5.0 (Macintosh; Intel Mac OS X 10.14; rv:126.0) Gecko/20100101 Firefox/126.0", 1680, 1050, 1000, false, false, "MacIntel", 8, 4, 0⟩,
  ⟨"Mozilla/5.0 (X11; Linux x86_64) AppleWebKit/537.36 (KHTML, like Gecko) Chrome/127.0.0.0 Safari/537.36", 1920, 1080, 1000, false, false, "Linux x86_64", 8, 8, 0⟩,
  ⟨"Mozilla/5.0 (X11; Linux x86_64) AppleWebKit/537.36 (KHTML, like Gecko) Chrome/126.0.0.0 Safari/537.36", 2560, 1440, 1000, false, false, "Linux x86_64", 16, 12, 0⟩,
  ⟨"Mozilla/5.0 (X11; Linux x86_64) AppleWebKit/537.36 (KHTML, like Gecko) Chrome/125.0.0.0 Safari/537.36", 1366, 768, 1000, false, false, "Linux x86_64", 4, 4, 0⟩,
  ⟨"Mozilla/5.0 (X11; Ubuntu; Linux x86_64; rv:127.0) Gecko/20100101 Firefox/127.0", 1366, 768, 1000, false, false, "Linux x86_64", 4, 4, 0⟩,
  ⟨"Mozilla/5.0 (X11; Ubuntu; Linux x86_64; rv:126.0) Gecko/20100101 Firefox/126.0", 1920, 1080, 1000, false, false, "Linux x86_64", 8, 8, 0⟩,
  ⟨"Mozilla/5.0 (Windows NT 10.0; Win64; x64) AppleWebKit/537.36 (KHTML, like Gecko) Chrome/131.0.0.0 Safari/537.36", 3840, 2160, 1250, false, false, "Win32", 24, 64, 0⟩,
  ⟨"Mozilla/5.0 (Windows NT 10.0; Win64; x64) AppleWebKit/537.36 (KHTML, like Gecko) Chrome/130.0.0.0 Safari/537.36", 5120, 2880, 2000, false, false, "Win32", 32, 128, 0⟩,
  ⟨"Mozilla/5.0 (Windows NT 10.0; Win64; x64) AppleWebKit/537.36 (KHTML, like Gecko) Chrome/129.0.0.0 Safari/537.36", 7680, 4320, 1500, false, false, "Win32", 64, 256, 0⟩,
  ⟨"Mozilla/5.0 (Windows NT 10.0; Win64; x64) AppleWebKit/537.36 (KHTML, like Gecko) Chrome/128.0.0.0 Safari/537.36", 2560, 1440, 1000, false, false, "Win32", 16, 32, 0⟩,
  ⟨"Mozilla/5.0 (Windows NT 10.0; Win64; x64) AppleWebKit/537.36 (KHTML, like Gecko) Chrome/127.0.0.0 Safari/537.36", 3440, 1440, 1000, false, false, "Win32", 20, 48, 0⟩,
  ⟨"Mozilla/5.0 (Windows NT 10.0; Win64; x64) AppleWebKit/537.36 (KHTML, like Gecko) Chrome/126.0.0.0 Safari/537.36", 2560, 1440, 1250, false, false, "Win32", 12, 32, 0⟩,
  ⟨"Mozilla/5.0 (Windows NT 10.0; Win64; x64) AppleWebKit/537.36 (KHTML, like Gecko) Chrome/125.0.0.0 Safari/537.36", 1920, 1080, 1000, false, false, "Win32", 8, 16, 0⟩,
  ⟨"Mozilla/5.0 (Windows NT 10.0; Win64; x64) AppleWebKit/537.36 (KHTML, like Gecko) Chrome/124.0.0.0 Safari/537.36", 3840, 2160, 1000, false, false, "Win32", 16, 32, 0⟩,
  ⟨"Mozilla/5.0 (Windows NT 10.0; Win64; x64) AppleWebKit/537.36 (KHTML, like Gecko) Chrome/123.0.0.0 Safari/537.36", 2560, 1440, 1250, false, false, "Win32", 24, 64, 0⟩,
  ⟨"Mozilla/5.0 (Windows NT 10.0; Win64; x64) AppleWebKit/537.36 (KHTML, like Gecko) Chrome/122.0.0.0 Safari/537.36", 1920, 1080, 1000, false, false, "Win32", 12, 16, 0⟩,
  ⟨"Mozilla/5.0 (Windows NT 10.0; Win64; x64) AppleWebKit/537.36 (KHTML, like Gecko) Chrome/121.0.0.0 Safari/537.36", 2560, 1440, 1250, false, false, "Win32", 16, 32, 0⟩,
  ⟨"Mozilla/5.0 (Macintosh; Intel Mac OS X 10_15_7) AppleWebKit/537.36 (KHTML, like Gecko) Chrome/131.0.0.0 Safari/537.36", 5120, 2880, 2000, false, false, "MacIntel", 12, 64, 0⟩,
  ⟨"Mozilla/5.0 (Macintosh; Intel Mac OS X 10_15_7) AppleWebKit/537.36 (KHTML, like Gecko) Chrome/130.0.0.0 Safari/537.36", 6016, 3384, 2000, false, false, "MacIntel", 16, 96, 0⟩,
  ⟨"Mozilla/5.0 (Macintosh; Intel Mac OS X 10_15_7) AppleWebKit/537.36 (KHTML, like Gecko) Chrome/129.0.0.0 Safari/537.36", 3456, 2234, 2000, false, false, "MacIntel", 12, 36, 0⟩,
  ⟨"Mozilla/5.0 (Macintosh; Intel Mac OS X 10_15_7) AppleWebKit/537.36 (KHTML, like Gecko) Chrome/128.0.0.0 Safari/537.36", 3024, 1964, 2000, false, false, "MacIntel", 11, 18, 0⟩,
  ⟨"Mozilla/5.0 (Macintosh; Intel Mac OS X 10_15_7) AppleWebKit/537.36 (KHTML, like Gecko) Chrome/127.0.0.0 Safari/537.36", 7680, 4320, 2000, false, false, "MacIntel", 24, 128, 0⟩,
  ⟨"Mozilla/5.0 (Macintosh; Intel Mac OS X 10_15_7) AppleWebKit/537.36 (KHTML, like Gecko) Chrome/126.0.0.0 Safari/537.36", 5120, 2880, 2000, false, false, "MacIntel", 20, 76, 0⟩,
  ⟨"Mozilla/5.0 (X11; Linux x86_64) AppleWebKit/537.36 (KHTML, like Gecko) Chrome/131.0.0.0 Safari/537.36", 3840, 2160, 1000, false, false, "Linux x86_64", 32, 128, 0⟩,
  ⟨"Mozilla/5.0 (X11; Linux x86_64) AppleWebKit/537.36 (KHTML, like Gecko) Chrome/130.0.0.0 Safari/537.36", 5120, 2880, 1000, false, false, "Linux x86_64", 64, 256, 0⟩,
  ⟨"Mozilla/5.0 (X11; Linux x86_64) AppleWebKit/537.36 (KHTML, like Gecko) Chrome/129.0.0.0 Safari/537.36", 2560, 1440, 1250, false, false, "Linux x86_64", 16, 32, 0⟩,
  ⟨"Mozilla/5.0 (X11; Linux x86_64) AppleWebKit/537.36 (KHTML, like Gecko) Chrome/128.0.0.0 Safari/537.36", 3440, 1440, 1000, false, false, "Linux x86_64", 24, 64, 0⟩,
  ⟨"Mozilla/5.0 (X11; Linux x86_64) AppleWebKit/537.36 (KHTML, like Gecko) Chrome/127.0.0.0 Safari/537.36", 2560, 1440, 1000, false, false, "Linux x86_64", 20, 48, 0⟩,
  ⟨"Mozilla/5.0 (X11; Linux x86_64) AppleWebKit/537.36 (KHTML, like Gecko) Chrome/126.0.0.0 Safari/537.36", 1920, 1080, 1000, false, false, "Linux x86_64", 12, 32, 0⟩,
  ⟨"Mozilla/5.0 (Windows NT 10.0; Win64; x64) AppleWebKit/537.36 (KHTML, like Gecko) Chrome/120.0.0.0 Safari/537.36", 1920, 1080, 1000, false, false, "Win32", 8, 16, 0⟩,
  ⟨"Mozilla/5.0 (Windows NT 10.0; Win64; x64) AppleWebKit/537.36 (KHTML, like Gecko) Chrome/119.0.0.0 Safari/537.36", 1366, 768, 1000, false, false, "Win32", 4, 8, 0⟩,
  ⟨"Mozilla/5.0 (Windows NT 10.0; Win64; x64) AppleWebKit/537.36 (KHTML, like Gecko) Chrome/118.0.0.0 Safari/537.36", 1440, 900, 1000, false, false, "Win32", 6, 8, 0⟩,
  ⟨"Mozilla/5.0 (Windows NT 10.0; Win64; x64) AppleWebKit/537.36 (KHTML, like Gecko) Chrome/117.0.0.0 Safari/537.36", 1600, 900, 1000, false, false, "Win32", 8, 12, 0⟩,
  ⟨"Mozilla/5.0 (Windows NT 10.0; Win64; x64) AppleWebKit/537.36 (KHTML, like Gecko) Chrome/116.0.0.0 Safari/537.36", 1280, 720, 1000, false, false, "Win32", 4, 6, 0⟩,
  ⟨"Mozilla/5.0 (Windows NT 10.0; Win64; x64) AppleWebKit/537.36 (KHTML, like Gecko) Chrome/115.0.0.0 Safari/537.36", 1536, 864, 1250, false, false, "Win32", 8, 16, 0⟩,
  ⟨"Mozilla/5.0 (Windows NT 10.0; Win64; x64) AppleWebKit/537.36 (KHTML, like Gecko) Chrome/114.0.0.0 Safari/537.36", 1728, 1117, 1500, false, false, "Win32", 16, 32, 0⟩,
  ⟨"Mozilla/5.0 (Windows NT 10.0; Win64; x64) AppleWebKit/537.36 (KHTML, like Gecko) Chrome/113.0.0.0 Safari/537.36", 2048, 1152, 1500, false, false, "Win32", 12, 24, 0⟩,
  ⟨"Mozilla/5.0 (Windows NT 10.0; Win64; x64) AppleWebKit/537.36 (KHTML, like Gecko) Chrome/112.0.0.0 Safari/537.36 Edg/112.0.0.0", 1920, 1080, 1000, false, false, "Win32", 8, 16, 0⟩,
  ⟨"Mozilla/5.0 (Windows NT 10.0; Win64; x64; rv:115.0) Gecko/20100101 Firefox/115.0", 1366, 768, 1000, false, false, "Win32", 6, 8, 0⟩,
  ⟨"Mozilla/5.0 (Windows NT 10.0; Win64; x64) AppleWebKit/537.36 (KHTML, like Gecko) Chrome/111.0.0.0 Safari/537.36 Edg/111.0.0.0", 2560, 1440, 1250, false, false, "Win32", 16, 32, 0⟩,
  ⟨"Mozilla/5.0 (Macintosh; Intel Mac OS X 10_15_7) AppleWebKit/605.1.15 (KHTML, like Gecko) Version/17.0 Safari/605.1.15", 1440, 900, 2000, false, false, "MacIntel", 8, 16, 0⟩,
  ⟨"Mozilla/5.0 (Macintosh; Intel Mac OS X 10_14_6) AppleWebKit/605.1.15 (KHTML, like Gecko) Version/16.0 Safari/605.1.15", 1680, 1050, 1000, false, false, "MacIntel", 8, 8, 0⟩,
  ⟨"Mozilla/5.0 (Macintosh; Intel Mac OS X 10_13_6) AppleWebKit/605.1.15 (KHTML, like Gecko) Version/15.0 Safari/605.1.15", 1280, 800, 1000, false, false, "MacIntel", 4, 8, 0⟩,
  ⟨"Mozilla/5.0 (Windows NT 10.0; Win64; x64) AppleWebKit/537.36 (KHTML, like Gecko) Chrome/131.0.0.0 Safari/537.36", 1792, 1120, 1400, false, false, "Win32", 10, 20, 0⟩,
  ⟨"Mozilla/5.0 (Windows NT 10.0; Win64; x64) AppleWebKit/537.36 (KHTML, like Gecko) Chrome/130.0.0.0 Safari/537.36", 2304, 1440, 1800, false, false, "Win32", 14, 28, 0⟩,
  ⟨"Mozilla/5.0 (Windows NT 10.0; Win64; x64) AppleWebKit/537.36 (KHTML, like Gecko) Chrome/129.0.0.0 Safari/537.36", 2176, 1224, 1600, false, false, "Win32", 12, 24, 0⟩
]

set_option maxHeartbeats 1600000 in
def MOBILE_PROFILES : List DeviceProfile := [
  ⟨"Mozilla/5.0 (iPhone; CPU iPhone OS 17_6 like Mac OS X) AppleWebKit/605.1.15 (KHTML, like Gecko) Version/17.6 Mobile/15E148 Safari/604.1", 390, 844, 3000, true, true, "iPhone", 6, 6, 5⟩,
  ⟨"Mozilla/5.0 (iPhone; CPU iPhone OS 17_5 like Mac OS X) AppleWebKit/605.1.15 (KHTML, like Gecko) Version/17.5 Mobile/15E148 Safari/604.1", 428, 926, 3000, true, true, "iPhone", 8, 6, 5⟩,
  ⟨"Mozilla/5.0 (iPhone; CPU iPhone OS 17_4 like Mac OS X) AppleWebKit/605.1.15 (KHTML, like Gecko) Version/17.4 Mobile/15E148 Safari/604.1", 430, 932, 3000, true, true, "iPhone", 8, 6, 5⟩,
  ⟨"Mozilla/5.0 (iPhone; CPU iPhone OS 16_7 like Mac OS X) AppleWebKit/605.1.15 (KHTML, like Gecko) Version/16.6 Mobile/15E148 Safari/604.1", 375, 667, 2000, true, true, "iPhone", 6, 6, 5⟩,
  ⟨"Mozilla/5.0 (iPhone; CPU iPhone OS 16_6 like Mac OS X) AppleWebKit/605.1.15 (KHTML, like Gecko) Version/16.6 Mobile/15E148 Safari/604.1", 390, 844, 3000, true, true, "iPhone", 6, 6, 5⟩,
  ⟨"Mozilla/5.0 (Linux; Android 14; SM-S918B) AppleWebKit/537.36 (KHTML, like Gecko) Chrome/127.0.0.0 Mobile Safari/537.36", 412, 915, 2625, true, true, "Linux armv8l", 8, 8, 10⟩,
  ⟨"Mozilla/5.0 (Linux; Android 14; SM-S928B) AppleWebKit/537.36 (KHTML, like Gecko) Chrome/127.0.0.0 Mobile Safari/537.36", 412, 915, 2625, true, true, "Linux armv8l", 12, 8, 10⟩,
  ⟨"Mozilla/5.0 (Linux; Android 13; SM-S911B) AppleWebKit/537.36 (KHTML, like Gecko) Chrome/126.0.0.0 Mobile Safari/537.36", 360, 780, 3000, true, true, "Linux armv8l", 8, 8, 10⟩,
  ⟨"Mozilla/5.0 (Linux; Android 13; SM-S916B) AppleWebKit/537.36 (KHTML, like Gecko) Chrome/126.0.0.0 Mobile Safari/537.36", 384, 854, 2750, true, true, "Linux armv8l", 8, 8, 10⟩,
  ⟨"Mozilla/5.0 (Linux; Android 14; Pixel 8 Pro) AppleWebKit/537.36 (KHTML, like Gecko) Chrome/127.0.0.0 Mobile Safari/537.36", 412, 892, 2625, true, true, "Linux armv8l", 12, 8, 10⟩,
  ⟨"Mozilla/5.0 (Linux; Android 14; Pixel 8) AppleWebKit/537.36 (KHTML, like Gecko) Chrome/127.0.0.0 Mobile Safari/537.36", 412, 915, 2625, true, true, "Linux armv8l", 8, 8, 10⟩,
  ⟨"Mozilla/5.0 (Linux; Android 13; Pixel 7) AppleWebKit/537.36 (KHTML, like Gecko) Chrome/126.0.0.0 Mobile Safari/537.36", 412, 915, 2625, true, true, "Linux armv8l", 8, 8, 10⟩,
  ⟨"Mozilla/5.0 (Linux; Android 13; Pixel 7 Pro) AppleWebKit/537.36 (KHTML, like Gecko) Chrome/126.0.0.0 Mobile Safari/537.36", 412, 892, 2625, true, true, "Linux armv8l", 12, 8, 10⟩,
  ⟨"Mozilla/5.0 (iPhone; CPU iPhone OS 17_7 like Mac OS X) AppleWebKit/605.1.15 (KHTML, like Gecko) Version/17.7 Mobile/15E148 Safari/604.1", 430, 932, 3000, true, true, "iPhone", 8, 8, 5⟩,
  ⟨"Mozilla/5.0 (iPhone; CPU iPhone OS 17_3 like Mac OS X) AppleWebKit/605.1.15 (KHTML, like Gecko) Version/17.3 Mobile/15E148 Safari/604.1", 430, 932, 3000, true, true, "iPhone", 8, 8, 5⟩,
  ⟨"Mozilla/5.0 (iPhone; CPU iPhone OS 17_2 like Mac OS X) AppleWebKit/605.1.15 (KHTML, like Gecko) Version/17.2 Mobile/15E148 Safari/604.1", 393, 852, 3000, true, true, "iPhone", 8, 6, 5⟩,
  ⟨"Mozilla/5.0 (iPhone; CPU iPhone OS 17_1 like Mac OS X) AppleWebKit/605.1.15 (KHTML, like Gecko) Version/17.1 Mobile/15E148 Safari/604.1", 393, 852, 3000, true, true, "iPhone", 8, 6, 5⟩,
  ⟨"Mozilla/5.0 (iPhone; CPU iPhone OS 17_0 like Mac OS X) AppleWebKit/605.1.15 (KHTML, like Gecko) Version/17.0 Mobile/15E148 Safari/604.1", 428, 926, 3000, true, true, "iPhone", 6, 6, 5⟩,
  ⟨"Mozilla/5.0 (iPhone; CPU iPhone OS 16_8 like Mac OS X) AppleWebKit/605.1.15 (KHTML, like Gecko) Version/16.7 Mobile/15E148 Safari/604.1", 428, 926, 3000, true, true, "iPhone", 6, 6, 5⟩,
  ⟨"Mozilla/5.0 (iPhone; CPU iPhone OS 16_5 like Mac OS X) AppleWebKit/605.1.15 (KHTML, like Gecko) Version/16.5 Mobile/15E148 Safari/604.1", 430, 932, 3000, true, true, "iPhone", 6, 6, 5⟩,
  ⟨"Mozilla/5.0 (iPhone; CPU iPhone OS 16_4 like Mac OS X) AppleWebKit/605.1.15 (KHTML, like Gecko) Version/16.4 Mobile/15E148 Safari/604.1", 430, 932, 3000, true, true, "iPhone", 6, 6, 5⟩,
  ⟨"Mozilla/5.0 (iPhone; CPU iPhone OS 15_8 like Mac OS X) AppleWebKit/605.1.15 (KHTML, like Gecko) Version/15.6 Mobile/15E148 Safari/604.1", 390, 844, 3000, true, true, "iPhone", 6, 4, 5⟩,
  ⟨"Mozilla/5.0 (iPhone; CPU iPhone OS 15_7 like Mac OS X) AppleWebKit/605.1.15 (KHTML, like Gecko) Version/15.6 Mobile/15E148 Safari/604.1", 428, 926, 3000, true, true, "iPhone", 6, 4, 5⟩,
  ⟨"Mozilla/5.0 (Linux; Android 14; SM-S928U) AppleWebKit/537.36 (KHTML, like Gecko) Chrome/131.0.0.0 Mobile Safari/537.36", 412, 915, 2625, true, true, "Linux armv8l", 12, 12, 10⟩,
  ⟨"Mozilla/5.0 (Linux; Android 14; SM-S928N) AppleWebKit/537.36 (KHTML, like Gecko) Chrome/130.0.0.0 Mobile Safari/537.36", 412, 915, 2625, true, true, "Linux armv8l", 12, 12, 10⟩,
  ⟨"Mozilla/5.0 (Linux; Android 14; SM-S926B) AppleWebKit/537.36 (KHTML, like Gecko) Chrome/129.0.0.0 Mobile Safari/537.36", 384, 854, 2750, true, true, "Linux armv8l", 8, 8, 10⟩,
  ⟨"Mozilla/5.0 (Linux; Android 14; SM-S926U) AppleWebKit/537.36 (KHTML, like Gecko) Chrome/128.0.0.0 Mobile Safari/537.36", 384, 854, 2750, true, true, "Linux armv8l", 8, 8, 10⟩,
  ⟨"Mozilla/5.0 (Linux; Android 13; SM-S711B) AppleWebKit/537.36 (KHTML, like Gecko) Chrome/127.0.0.0 Mobile Safari/537.36", 360, 780, 3000, true, true, "Linux armv8l", 8, 6, 10⟩,
  ⟨"Mozilla/5.0 (Linux; Android 13; SM-S711U) AppleWebKit/537.36 (KHTML, like Gecko) Chrome/126.0.0.0 Mobile Safari/537.36", 360, 780, 3000, true, true, "Linux armv8l", 8, 6, 10⟩,
  ⟨"Mozilla/5.0 (Linux; Android 14; CPH2573) AppleWebKit/537.36 (KHTML, like Gecko) Chrome/131.0.0.0 Mobile Safari/537.36", 450, 1000, 2625, true, true, "Linux armv8l", 16, 12, 10⟩,
  ⟨"Mozilla/5.0 (Linux; Android 14; PJD110) AppleWebKit/537.36 (KHTML, like Gecko) Chrome/130.0.0.0 Mobile Safari/537.36", 450, 1000, 2625, true, true, "Linux armv8l", 16, 12, 10⟩,
  ⟨"Mozilla/5.0 (Linux; Android 13; CPH2449) AppleWebKit/537.36 (KHTML, like Gecko) Chrome/129.0.0.0 Mobile Safari/537.36", 412, 915, 2625, true, true, "Linux armv8l", 16, 8, 10⟩,
  ⟨"Mozilla/5.0 (Linux; Android 13; PJC110) AppleWebKit/537.36 (KHTML, like Gecko) Chrome/128.0.0.0 Mobile Safari/537.36", 412, 915, 2625, true, true, "Linux armv8l", 16, 8, 10⟩,
  ⟨"Mozilla/5.0 (Linux; Android 14; 24031PN0DC) AppleWebKit/537.36 (KHTML, like Gecko) Chrome/127.0.0.0 Mobile Safari/537.36", 412, 915, 2625, true, true, "Linux armv8l", 12, 8, 10⟩,
  ⟨"Mozilla/5.0 (Linux; Android 14; 2401DPN0DC) AppleWebKit/537.36 (KHTML, like Gecko) Chrome/126.0.0.0 Mobile Safari/537.36", 450, 1000, 2750, true, true, "Linux armv8l", 12, 12, 10⟩,
  ⟨"Mozilla/5.0 (Linux; Android 14; Pixel 6 Pro) AppleWebKit/537.36 (KHTML, like Gecko) Chrome/125.0.0.0 Mobile Safari/537.36", 412, 892, 2625, true, true, "Linux armv8l", 12, 8, 10⟩,
  ⟨"Mozilla/5.0 (Linux; Android 13; Pixel 6a) AppleWebKit/537.36 (KHTML, like Gecko) Chrome/124.0.0.0 Mobile Safari/537.36", 412, 915, 2625, true, true, "Linux armv8l", 6, 6, 10⟩,
  ⟨"Mozilla/5.0 (Linux; Android 12; Pixel 6) AppleWebKit/537.36 (KHTML, like Gecko) Chrome/123.0.0.0 Mobile Safari/537.36", 412, 915, 2625, true, true, "Linux armv8l", 8, 8, 10⟩,
  ⟨"Mozilla/5.0 (Linux; Android 13; ALN-L29) AppleWebKit/537.36 (KHTML, like Gecko) Chrome/122.0.0.0 Mobile Safari/537.36", 412, 915, 2625, true, true, "Linux armv8l", 8, 8, 10⟩,
  ⟨"Mozilla/5.0 (Linux; Android 13; ALN-AL00) AppleWebKit/537.36 (KHTML, like Gecko) Chrome/121.0.0.0 Mobile Safari/537.36", 450, 1000, 2750, true, true, "Linux armv8l", 8, 8, 10⟩,
  ⟨"Mozilla/5.0 (Linux; Android 13; CPH2451) AppleWebKit/537.36 (KHTML, like Gecko) Chrome/120.0.0.0 Mobile Safari/537.36", 412, 915, 2625, true, true, "Linux armv8l", 12, 8, 10⟩,
  ⟨"Mozilla/5.0 (Linux; Android 13; PHB110) AppleWebKit/537.36 (KHTML, like Gecko) Chrome/119.0.0.0 Mobile Safari/537.36", 450, 1000, 2750, true, true, "Linux armv8l", 16, 12, 10⟩
]

set_option maxHeartbeats 1600000 in
def TABLET_PROFILES : List DeviceProfile := [
  ⟨"Mozilla/5.0 (iPad; CPU OS 17_6 like Mac OS X) AppleWebKit/605.1.15 (KHTML, like Gecko) Version/17.6 Mobile/15E148 Safari/604.1", 1024, 1366, 2000, true, true, "MacIntel", 16, 8, 5⟩,
  ⟨"Mozilla/5.0 (iPad; CPU OS 16_7 like Mac OS X) AppleWebKit/605.1.15 (KHTML, like Gecko) Version/16.6 Mobile/15E148 Safari/604.1", 1024, 1366, 2000, true, true, "MacIntel", 16, 8, 5⟩,
  ⟨"Mozilla/5.0 (iPad; CPU OS 17_6 like Mac OS X) AppleWebKit/605.1.15 (KHTML, like Gecko) Version/17.6 Mobile/15E148 Safari/604.1", 834, 1194, 2000, true, true, "MacIntel", 8, 8, 5⟩,
  ⟨"Mozilla/5.0 (iPad; CPU OS 16_7 like Mac OS X) AppleWebKit/605.1.15 (KHTML, like Gecko) Version/16.6 Mobile/15E148 Safari/604.1", 834, 1194, 2000, true, true, "MacIntel", 8, 8, 5⟩,
  ⟨"Mozilla/5.0 (Linux; Android 13; SM-X916C) AppleWebKit/537.36 (KHTML, like Gecko) Chrome/127.0.0.0 Safari/537.36", 800, 1280, 2000, true, true, "Linux armv8l", 12, 8, 10⟩,
  ⟨"Mozilla/5.0 (Linux; Android 13; SM-X906C) AppleWebKit/537.36 (KHTML, like Gecko) Chrome/127.0.0.0 Safari/537.36", 800, 1232, 2000, true, true, "Linux armv8l", 8, 8, 10⟩,
  ⟨"Mozilla/5.0 (iPad; CPU OS 17_5 like Mac OS X) AppleWebKit/605.1.15 (KHTML, like Gecko) Version/17.5 Mobile/15E148 Safari/604.1", 820, 1180, 2000, true, true, "MacIntel", 10, 8, 5⟩,
  ⟨"Mozilla/5.0 (iPad; CPU OS 17_4 like Mac OS X) AppleWebKit/605.1.15 (KHTML, like Gecko) Version/17.4 Mobile/15E148 Safari/604.1", 820, 1180, 2000, true, true, "MacIntel", 10, 8, 5⟩,
  ⟨"Mozilla/5.0 (iPad; CPU OS 17_3 like Mac OS X) AppleWebKit/605.1.15 (KHTML, like Gecko) Version/17.3 Mobile/15E148 Safari/604.1", 744, 1133, 2000, true, true, "MacIntel", 6, 4, 5⟩,
  ⟨"Mozilla/5.0 (iPad; CPU OS 17_2 like Mac OS X) AppleWebKit/605.1.15 (KHTML, like Gecko) Version/17.2 Mobile/15E148 Safari/604.1", 744, 1133, 2000, true, true, "MacIntel", 6, 4, 5⟩,
  ⟨"Mozilla/5.0 (iPad; CPU OS 16_6 like Mac OS X) AppleWebKit/605.1.15 (KHTML, like Gecko) Version/16.6 Mobile/15E148 Safari/604.1", 820, 1180, 2000, true, true, "MacIntel", 6, 4, 5⟩,
  ⟨"Mozilla/5.0 (iPad; CPU OS 16_5 like Mac OS X) AppleWebKit/605.1.15 (KHTML, like Gecko) Version/16.5 Mobile/15E148 Safari/604.1", 820, 1180, 2000, true, true, "MacIntel", 6, 4, 5⟩,
  ⟨"Mozilla/5.0 (Linux; Android 13; SM-X916B) AppleWebKit/537.36 (KHTML, like Gecko) Chrome/131.0.0.0 Safari/537.36", 900, 1440, 2000, true, true, "Linux armv8l", 16, 12, 10⟩,
  ⟨"Mozilla/5.0 (Linux; Android 13; SM-X916U) AppleWebKit/537.36 (KHTML, like Gecko) Chrome/130.0.0.0 Safari/537.36", 900, 1440, 2000, true, true, "Linux armv8l", 16, 12, 10⟩,
  ⟨"Mozilla/5.0 (Linux; Android 13; SM-X816B) AppleWebKit/537.36 (KHTML, like Gecko) Chrome/129.0.0.0 Safari/537.36", 800, 1280, 2000, true, true, "Linux armv8l", 12, 8, 10⟩,
  ⟨"Mozilla/5.0 (Linux; Android 13; SM-X816U) AppleWebKit/537.36 (KHTML, like Gecko) Chrome/128.0.0.0 Safari/537.36", 800, 1280, 2000, true, true, "Linux armv8l", 12, 8, 10⟩,
  ⟨"Mozilla/5.0 (Linux; Android 12; SM-X906B) AppleWebKit/537.36 (KHTML, like Gecko) Chrome/127.0.0.0 Safari/537.36", 900, 1440, 2000, true, true, "Linux armv8l", 16, 8, 10⟩,
  ⟨"Mozilla/5.0 (Linux; Android 12; SM-X806B) AppleWebKit/537.36 (KHTML, like Gecko) Chrome/126.0.0.0 Safari/537.36", 800, 1280, 2000, true, true, "Linux armv8l", 8, 6, 10⟩,
  ⟨"Mozilla/5.0 (Windows NT 10.0; Win64; x64; Touch) AppleWebKit/537.36 (KHTML, like Gecko) Chrome/131.0.0.0 Safari/537.36", 912, 1368, 1500, true, true, "Win32", 16, 16, 10⟩,
  ⟨"Mozilla/5.0 (Windows NT 10.0; Win64; x64; Touch) AppleWebKit/537.36 (KHTML, like Gecko) Chrome/130.0.0.0 Safari/537.36", 912, 1368, 1500, true, true, "Win32", 32, 32, 10⟩,
  ⟨"Mozilla/5.0 (Linux; Android 13; Pixel Tablet) AppleWebKit/537.36 (KHTML, like Gecko) Chrome/129.0.0.0 Safari/537.36", 840, 1344, 2000, true, true, "Linux armv8l", 8, 8, 10⟩,
  ⟨"Mozilla/5.0 (Linux; Android 14; Pixel Tablet) AppleWebKit/537.36 (KHTML, like Gecko) Chrome/128.0.0.0 Safari/537.36", 840, 1344, 2000, true, true, "Linux armv8l", 8, 8, 10⟩,
  ⟨"Mozilla/5.0 (Linux; Android 11; TB-Q706F) AppleWebKit/537.36 (KHTML, like Gecko) Chrome/127.0.0.0 Safari/537.36", 800, 1280, 2000, true, true, "Linux armv8l", 8, 6, 10⟩,
  ⟨"Mozilla/5.0 (Linux; Android 12; TB-Q706F) AppleWebKit/537.36 (KHTML, like Gecko) Chrome/126.0.0.0 Safari/537.36", 800, 1280, 2000, true, true, "Linux armv8l", 8, 8, 10⟩,
  ⟨"Mozilla/5.0 (Linux; Android 11; KFTRWI) AppleWebKit/537.36 (KHTML, like Gecko) Chrome/125.0.0.0 Safari/537.36", 800, 1280, 1500, true, true, "Linux armv7l", 4, 3, 10⟩,
  ⟨"Mozilla/5.0 (Linux; Android 11; KFMAWI) AppleWebKit/537.36 (KHTML, like Gecko) Chrome/124.0.0.0 Safari/537.36", 600, 1024, 1500, true, true, "Linux armv7l", 2, 2, 10⟩,
  ⟨"Mozilla/5.0 (Linux; Android 13; 23073RPBFG) AppleWebKit/537.36 (KHTML, like Gecko) Chrome/123.0.0.0 Safari/537.36", 840, 1344, 2000, true, true, "Linux armv8l", 8, 8, 10⟩,
  ⟨"Mozilla/5.0 (Linux; Android 13; 2306FPCA3G) AppleWebKit/537.36 (KHTML, like Gecko) Chrome/122.0.0.0 Safari/537.36", 1000, 1600, 2000, true, true, "Linux armv8l", 12, 12, 10⟩,
  ⟨"Mozilla/5.0 (Linux; Android 13; OPD2203) AppleWebKit/537.36 (KHTML, like Gecko) Chrome/121.0.0.0 Safari/537.36", 800, 1280, 2000, true, true, "Linux armv8l", 12, 8, 10⟩,
  ⟨"Mozilla/5.0 (Linux; Android 13; OP594DL) AppleWebKit/537.36 (KHTML, like Gecko) Chrome/120.0.0.0 Safari/537.36", 800, 1280, 2000, true, true, "Linux armv8l", 12, 8, 10⟩
]

def LOCALE_TZS : List (String × String) := [
  ("en-US", "America/New_York"),
  ("en-US", "America/Los_Angeles"),
  ("en-US", "America/Chicago"),
  ("en-US", "America/Denver"),
  ("en-GB", "Europe/London"),
  ("de-DE", "Europe/Berlin"),
  ("fr-FR", "Europe/Paris"),
  ("es-ES", "Europe/Madrid"),
  ("it-IT", "Europe/Rome"),
  ("ja-JP", "Asia/Tokyo"),
  ("zh-CN", "Asia/Shanghai"),
  ("ko-KR", "Asia/Seoul"),
  ("pt-BR", "America/Sao_Paulo"),
  ("ru-RU", "Europe/Moscow"),
  ("ar-SA", "Asia/Riyadh"),
  ("hi-IN", "Asia/Kolkata"),
  ("th-TH", "Asia/Bangkok"),
  ("vi-VN", "Asia/Ho_Chi_Minh"),
  ("tr-TR", "Europe/Istanbul"),
  ("pl-PL", "Europe/Warsaw"),
  ("nl-NL", "Europe/Amsterdam"),
  ("sv-SE", "Europe/Stockholm"),
  ("da-DK", "Europe/Copenhagen"),
  ("no-NO", "Europe/Oslo"),
  ("fi-FI", "Europe/Helsinki"),
  ("cs-CZ", "Europe/Prague"),
  ("hu-HU", "Europe/Budapest"),
  ("el-GR", "Europe/Athens"),
  ("he-IL", "Asia/Jerusalem"),
  ("id-ID", "Asia/Jakarta"),
  ("ms-MY", "Asia/Kuala_Lumpur"),
  ("en-AU", "Australia/Sydney"),
  ("en-CA", "America/Toronto"),
  ("es-MX", "America/Mexico_City"),
  ("en-ZA", "Africa/Johannesburg")
]

/-! ## `fingerprints.py`: fingerprint generators -/

/-- `generate_canvas_fingerprint`: MD5 of `"{platform}_{memory}_{cores}"`.
The call sites always supply the three keys, so the dict `.get` defaults
(`'Win32'`, `8`, `4`) never apply and the fields are plain arguments. -/
def generate_canvas_fingerprint (platform : String)
    (device_memory hardware_concurrency : Nat) : String :=
  md5hex (platform ++ "_" ++ toString device_memory ++ "_" ++
    toString hardware_concurrency)

/-- Result record of `generate_webgl_fingerprint`. -/
structure WebGLFingerprint where
  vendor : String
  renderer : String
  version : String
  shading_language_version : String
deriving DecidableEq, Repr

/-- The Windows `gpu_options` table inside `generate_webgl_fingerprint`. -/
def gpu_options : List (String × String) := [
  ("NVIDIA Corporation", "NVIDIA GeForce RTX 3060"),
  ("Intel", "Intel(R) UHD Graphics 630"),
  ("AMD", "AMD Radeon RX 580")]

/-- `generate_webgl_fingerprint`: branch on mobile flag and platform
substring; Windows desktops pick a GPU by `device_memory % 3`. -/
def generate_webgl_fingerprint (platform : String) (is_mobile : Bool)
    (device_memory : Nat) : WebGLFingerprint :=
  if is_mobile then
    if pyContains platform "iPhone" then
      ⟨"Apple Inc.", "Apple GPU", "WebGL 1.0", "WebGL GLSL ES 1.0"⟩
    else
      ⟨"Qualcomm", "Adreno (TM) 640", "WebGL 1.0", "WebGL GLSL ES 1.0"⟩
  else
    if pyContains platform "Mac" then
      ⟨"Intel Inc.", "Intel(R) Iris(TM) Plus Graphics", "WebGL 1.0",
        "WebGL GLSL ES 1.0"⟩
    else if pyContains platform "Linux" then
      ⟨"Mesa", "Mesa DRI Intel(R) UHD Graphics", "WebGL 1.0",
        "WebGL GLSL ES 1.0"⟩
    else
      let gpu := gpu_options.getD (device_memory % gpu_options.length) ("", "")
      ⟨gpu.1, gpu.2, "WebGL 1.0", "WebGL GLSL ES 1.0"⟩

/-- `generate_fonts_list`: base fonts plus a platform-specific set. -/
def generate_fonts_list (platform : String) : List String :=
  let base_fonts := ["Arial", "Helvetica", "Times", "Times New Roman",
    "Courier", "Courier New", "Verdana", "Georgia", "Palatino", "Garamond",
    "Bookman", "Comic Sans MS", "Trebuchet MS", "Arial Black", "Impact"]
  if pyContains platform "Win32" then
    base_fonts ++ ["Calibri", "Cambria", "Consolas", "Constantia", "Corbel",
      "Candara", "Segoe UI", "Tahoma", "MS Sans Serif", "MS Serif"]
  else if pyContains platform "Mac" then
    base_fonts ++ ["Monaco", "Menlo", "SF Pro Display", "SF Pro Text",
      "Helvetica Neue", "Lucida Grande", "Apple Symbols", "Marker Felt"]
  else
    base_fonts ++ ["Ubuntu", "DejaVu Sans", "Liberation Sans", "Droid Sans",
      "Noto Sans", "FreeSans", "FreeMono"]

/-- The values `create_stealth_scripts` computes and interpolates into its
otherwise static JavaScript template: the canvas fingerprint, the WebGL
record (obtained WITHOUT an `is_mobile` key, so with its `False` default),
the audio MD5, and the fonts list (computed but never interpolated).  The
fixed JavaScript text surrounding them is not modelled. -/
structure StealthScript where
  canvas_fp : String
  webgl_fp : WebGLFingerprint
  audio_fp : String
  fonts : List String
deriving DecidableEq, Repr

/-- `create_stealth_scripts`: the dynamic content of the injected script.
`random_profile` also passes `max_touch_points` and `viewport`, which the
function never reads. -/
def create_stealth_scripts (platform : String)
    (device_memory hardware_concurrency : Nat) : StealthScript :=
  { canvas_fp := generate_canvas_fingerprint platform device_memory
      hardware_concurrency
    webgl_fp := generate_webgl_fingerprint platform false device_memory
    audio_fp := md5hex (platform ++ "_audio")
    fonts := generate_fonts_list platform }

/-- Result record of `generate_realistic_headers`: header name/value pairs
in insertion order. -/
def generate_realistic_headers (locale user_agent : String) :
    List (String × String) :=
  let base := [
    ("User-Agent", user_agent),
    ("Accept", "text/html,application/xhtml+xml,application/xml;q=0.9,image/avif,image/webp,image/apng,*/*;q=0.8,application/signed-exchange;v=b3;q=0.7"),
    ("Accept-Language", locale ++ "," ++ ((locale.splitOn "-").headD "") ++ ";q=0.9,en;q=0.8"),
    ("Accept-Encoding", "gzip, deflate, br"),
    ("Cache-Control", "max-age=0"),
    ("Upgrade-Insecure-Requests", "1"),
    ("Sec-Fetch-Dest", "document"),
    ("Sec-Fetch-Mode", "navigate"),
    ("Sec-Fetch-Site", "none"),
    ("Sec-Fetch-User", "?1")]
  if pyContains user_agent "Chrome" && !pyContains user_agent "Edg" then
    base ++ [
      ("sec-ch-ua", "\"Chromium\";v=\"127\", \"Not)A;Brand\";v=\"99\""),
      ("sec-ch-ua-mobile", if pyContains user_agent "Mobile" then "?1" else "?0"),
      ("sec-ch-ua-platform",
        if pyContains user_agent "Windows" then "\"Windows\""
        else if pyContains user_agent "Mac" then "\"macOS\""
        else "\"Linux\"")]
  else base

/-- Result record of `generate_tls_fingerprint`. -/
structure TLSFingerprint where
  version : String
  cipher_suites : List String
  extensions : List String
  curves : List String
  signature_algorithms : List String
  alpn : List String
deriving DecidableEq, Repr

/-- `generate_tls_fingerprint`: cipher suites and extensions by browser
(from the user agent) and platform. -/
def generate_tls_fingerprint (platform user_agent : String) : TLSFingerprint :=
  let vce : String × List String × List String :=
    if pyContains user_agent "Chrome" then
      if pyContains platform "Win32" then
        ("TLSv1.3",
         ["TLS_AES_128_GCM_SHA256", "TLS_AES_256_GCM_SHA384",
          "TLS_CHACHA20_POLY1305_SHA256",
          "TLS_ECDHE_ECDSA_WITH_AES_128_GCM_SHA256",
          "TLS_ECDHE_RSA_WITH_AES_128_GCM_SHA256"],
         ["server_name", "extended_master_secret", "renegotiation_info",
          "supported_groups", "ec_point_formats", "session_ticket",
          "application_layer_protocol_negotiation", "status_request",
          "signature_algorithms", "signed_certificate_timestamp",
          "key_share", "psk_key_exchange_modes", "supported_versions",
          "compress_certificate", "application_settings"])
      else if pyContains platform "Mac" then
        ("TLSv1.3",
         ["TLS_AES_128_GCM_SHA256", "TLS_AES_256_GCM_SHA384",
          "TLS_CHACHA20_POLY1305_SHA256",
          "TLS_ECDHE_ECDSA_WITH_AES_256_GCM_SHA384",
          "TLS_ECDHE_RSA_WITH_AES_256_GCM_SHA384"],
         ["server_name", "extended_master_secret", "renegotiation_info",
          "supported_groups", "ec_point_formats", "session_ticket",
          "application_layer_protocol_negotiation", "status_request",
          "signature_algorithms", "signed_certificate_timestamp",
          "key_share", "psk_key_exchange_modes", "supported_versions"])
      else
        ("TLSv1.3",
         ["TLS_AES_128_GCM_SHA256", "TLS_AES_256_GCM_SHA384",
          "TLS_CHACHA20_POLY1305_SHA256",
          "TLS_ECDHE_ECDSA_WITH_AES_128_GCM_SHA256",
          "TLS_ECDHE_RSA_WITH_AES_128_GCM_SHA256"],
         ["server_name", "extended_master_secret", "renegotiation_info",
          "supported_groups", "ec_point_formats", "session_ticket",
          "application_layer_protocol_negotiation", "status_request",
          "signature_algorithms", "key_share", "psk_key_exchange_modes",
          "supported_versions"])
    else if pyContains user_agent "Safari" then
      ("TLSv1.3",
       ["TLS_AES_128_GCM_SHA256", "TLS_AES_256_GCM_SHA384",
        "TLS_CHACHA20_POLY1305_SHA256",
        "TLS_ECDHE_ECDSA_WITH_AES_256_GCM_SHA384",
        "TLS_ECDHE_ECDSA_WITH_AES_128_GCM_SHA256"],
       ["server_name", "extended_master_secret", "renegotiation_info",
        "supported_groups", "ec_point_formats", "session_ticket",
        "application_layer_protocol_negotiation", "signature_algorithms",
        "key_share", "psk_key_exchange_modes", "supported_versions"])
    else
      ("TLSv1.3",
       ["TLS_AES_128_GCM_SHA256", "TLS_CHACHA20_POLY1305_SHA256",
        "TLS_AES_256_GCM_SHA384",
        "TLS_ECDHE_ECDSA_WITH_AES_128_GCM_SHA256",
        "TLS_ECDHE_RSA_WITH_AES_128_GCM_SHA256"],
       ["server_name", "extended_master_secret", "renegotiation_info",
        "supported_groups", "ec_point_formats", "session_ticket",
        "application_layer_protocol_negotiation", "signature_algorithms",
        "key_share", "psk_key_exchange_modes", "supported_versions"])
  { version := vce.1
    cipher_suites := vce.2.1
    extensions := vce.2.2
    curves := ["X25519", "secp256r1", "secp384r1"]
    signature_algorithms := ["ecdsa_secp256r1_sha256", "rsa_pss_rsae_sha256",
      "rsa_pkcs1_sha256", "ecdsa_secp384r1_sha384", "rsa_pss_rsae_sha384",
      "rsa_pkcs1_sha384"]
    alpn := ["h2", "http/1.1"] }

/-! ## `random_profile` -/

/-- The `color_scheme` candidates in `random_profile`. -/
def color_schemes : List String := ["light", "dark", "no-preference"]

/-- The `reduced_motion` candidates in `random_profile`. -/
def reduced_motions : List String := ["no-preference", "reduce"]

/-- The weighted `device_type` outcome in `random_profile`. -/
inductive DeviceType where
  | desktop
  | mobile
  | tablet
deriving DecidableEq, Repr

/-- One outcome of all the random draws `random_profile` performs: the
weighted device-type choice and the uniform index of each `random.choice`.
The weights `[70, 25, 5]` only bias which outcomes are likely; every field
of this structure is a possible draw. -/
structure ProfileChoice where
  deviceType : DeviceType
  desktopIdx : Fin DESKTOP_PROFILES.length
  mobileIdx : Fin MOBILE_PROFILES.length
  tabletIdx : Fin TABLET_PROFILES.length
  localeIdx : Fin LOCALE_TZS.length
  colorIdx : Fin color_schemes.length
  motionIdx : Fin reduced_motions.length

/-- The `device` local of `random_profile`: one entry of the table selected
by the device type. -/
def chosenDevice (c : ProfileChoice) : DeviceProfile :=
  match c.deviceType with
  | .desktop => DESKTOP_PROFILES.get c.desktopIdx
  | .mobile => MOBILE_PROFILES.get c.mobileIdx
  | .tablet => TABLET_PROFILES.get c.tabletIdx

/-- The dictionary `random_profile` returns.  The `advanced_behavioral` and
`modern_evasion` entries are omitted: both generators take no input and
return fixed static data. -/
structure Profile where
  user_agent : String
  viewport_width : Nat
  viewport_height : Nat
  device_scale_factor_milli : Nat
  is_mobile : Bool
  has_touch : Bool
  platform : String
  device_memory : Nat
  hardware_concurrency : Nat
  max_touch_points : Nat
  locale : String
  timezone : String
  timezone_id : String
  color_scheme : String
  reduced_motion : String
  headers : List (String × String)
  canvas_fingerprint : String
  webgl_fingerprint : WebGLFingerprint
  stealth_script : StealthScript
  tls_fingerprint : TLSFingerprint
deriving DecidableEq, Repr

/-- `random_profile`, as a pure function of the outcome of its draws. -/
def random_profile (c : ProfileChoice) : Profile :=
  let device := chosenDevice c
  let lt := LOCALE_TZS.get c.localeIdx
  { user_agent := device.user_agent
    viewport_width := device.viewport_width
    viewport_height := device.viewport_height
    device_scale_factor_milli := device.device_scale_factor_milli
    is_mobile := device.is_mobile
    has_touch := device.has_touch
    platform := device.platform
    device_memory := device.device_memory
    hardware_concurrency := device.hardware_concurrency
    max_touch_points := device.max_touch_points
    locale := lt.1
    timezone := lt.2
    timezone_id := lt.2
    color_scheme := color_schemes.get c.colorIdx
    reduced_motion := reduced_motions.get c.motionIdx
    headers := generate_realistic_headers lt.1 device.user_agent
    canvas_fingerprint := generate_canvas_fingerprint device.platform
      device.device_memory device.hardware_concurrency
    webgl_fingerprint := generate_webgl_fingerprint device.platform
      device.is_mobile device.device_memory
    stealth_script := create_stealth_scripts device.platform
      device.device_memory device.hardware_concurrency
    tls_fingerprint := generate_tls_fingerprint device.platform
      device.user_agent }

/-! ## `main.py`: data model -/

/-- `StepResult` dataclass. -/
structure StepResult where
  step : String
  status : String
  detail : String := ""
deriving DecidableEq, Repr

/-- `InstanceState` dataclass.  The wall-clock fields `started_at` and
`last_duration` (floats) are not modelled. -/
structure InstanceState where
  id : Nat
  runs : Nat := 0
  successes : Nat := 0
  failures : Nat := 0
  current_step : String := "idle"
  last_url : String := ""
  last_detail : String := ""
  status : String := "idle"
deriving DecidableEq, Repr

/-- `InstanceState(id=...)` with all counter/status defaults. -/
def initState (id : Nat) : InstanceState := { id := id }

/-! ## `main.py`: the runner loop

`runner_task` is an unconditional `while True` whose body runs one pass of
`run_once` inside `try/except Exception`.  One pass is modelled by its
observable outcome: the `run_once` result list (success), the exception
message (failure, any `Exception`), or external cancellation
(`asyncio.CancelledError` is a `BaseException`, NOT caught by
`except Exception`, so it is the only way the loop ends). -/

/-- Observable outcome of one `run_once` call. -/
inductive PassOutcome where
  | ok (results : List StepResult)
  | err (msg : String)
  | cancel
deriving DecidableEq, Repr

/-- Start of a pass: `state.status = "running"`, `state.current_step =
"pick url"`, `state.last_url = url` (lines 638-641). -/
def runnerStart (url : String) (s : InstanceState) : InstanceState :=
  { s with status := "running", current_step := "pick url", last_url := url }

/-- End of a pass (lines 643-659): on success increment `runs` and
`successes`, record the last step detail, set `status := "idle"` and sleep
1 s; on a caught exception increment `runs` and `failures`, truncate the
message to 100 characters into `last_detail`, set
`status := "error/restarting"` and sleep 2 s.  Cancellation propagates:
the loop ends (`none`).  The returned number is the sleep in seconds. -/
def runnerFinish (o : PassOutcome) (s : InstanceState) :
    Option (InstanceState × Nat) :=
  match o with
  | .ok results =>
    some ({ s with
      runs := s.runs + 1
      successes := s.successes + 1
      last_detail := match results.getLast? with
        | some r => r.detail
        | none => ""
      status := "idle"
      current_step := "sleep 1s" }, 1)
  | .err msg =>
    some ({ s with
      runs := s.runs + 1
      failures := s.failures + 1
      status := "error/restarting"
      last_detail := pyTake msg 100
      current_step := "error recovery" }, 2)
  | .cancel => none

/-- One full pass of the `while True` body. -/
def runnerPass (o : PassOutcome) (url : String) (s : InstanceState) :
    Option (InstanceState × Nat) :=
  runnerFinish o (runnerStart url s)

/-- The state after `n` passes of the runner loop, given the outcome and
picked URL of each pass; `none` once cancellation has ended the loop. -/
def runnerRun (outs : Nat → PassOutcome) (urls : Nat → String) :
    Nat → InstanceState → Option InstanceState
  | 0, s => some s
  | n + 1, s =>
    match runnerRun outs urls n s with
    | none => none
    | some sn =>
      match runnerPass (outs n) (urls n) sn with
      | none => none
      | some (s2, _) => some s2

/-! ## `main.py`: startup (lines 576-598)

`main` reads `urls.txt`, exits with code 1 if the read fails or no
non-blank line remains, then prompts for the instance count.  The browser
launch and the runner/dashboard tasks come strictly after this prologue,
so a `.exit` result means no browser was ever launched. -/

/-- The `urls_list` comprehension: split lines, strip each, keep the
non-empty ones. -/
def parseUrls (content : String) : List String :=
  ((pySplitlines content).map pyStrip).filter (fun ln => ln ≠ "")

/-- `INSTANCES` after the prompt: `int(user_in.strip())` if it parses and
lies in `[1, 50]`, otherwise the `except` fallback `1`. -/
def instanceCount (user_in : String) : Nat :=
  match pyInt (pyStrip user_in) with
  | some n => if n < 1 ∨ 50 < n then 1 else n.toNat
  | none => 1

/-- The `states` list: `[InstanceState(id=i+1) for i in range(INSTANCES)]`. -/
def instancesStates (user_in : String) : List InstanceState :=
  (List.range (instanceCount user_in)).map (fun i => initState (i + 1))

/-- How the startup prologue of `main` ends: `sys.exit(code)` after
printing `message`, or proceeding to launch the browser with the URL list
and instance count. -/
inductive StartupResult where
  | exit (code : Nat) (message : String)
  | proceed (urls : List String) (instances : Nat)
deriving DecidableEq, Repr

/-- The startup prologue of `main`: the URL-file read result (exception
message or file content) and the instance prompt determine the outcome. -/
def mainStartup (fileRead : Except String String) (user_in : String) :
    StartupResult :=
  match fileRead with
  | .error e => .exit 1 ("Failed to read URL file: " ++ e)
  | .ok content =>
    let urls := parseUrls content
    if urls.isEmpty then .exit 1 "No URLs found in the file"
    else .proceed urls (instanceCount user_in)

/-! ## `main.py`: browser launch (lines 661-726)

After the startup prologue, `main` launches the shared browser inside
`try/except`: a first `p.chromium.launch` failure is caught, `playwright
install chromium` runs via `subprocess.run` with `check=False` (so an
install failure cannot raise), and the launch is retried (line 698) with
no surrounding handler.  An exception from the retried launch propagates
out of `main` through `asyncio.run`; the top-level handler catches only
`KeyboardInterrupt`, so the process dies with a traceback and the
interpreter's non-default exit code 1. -/

/-- How the browser-launch phase ends: a usable browser, or the uncaught
failure of the retried launch (a fatal error surfaced as exit code 1). -/
inductive LaunchResult where
  | launched
  | fatal (msg : String)
deriving DecidableEq, Repr

/-- The browser-launch phase as a function of the outcomes of the two
`p.chromium.launch` calls (exception message or success). -/
def browserLaunch (attempt1 attempt2 : Except String Unit) : LaunchResult :=
  match attempt1 with
  | .ok _ => .launched
  | .error _ =>
    match attempt2 with
    | .ok _ => .launched
    | .error e => .fatal e

/-- Sample draw used in closed witnesses: first desktop entry, first
locale, first colour/motion choices. -/
def sampleChoice : ProfileChoice :=
  ⟨.desktop, ⟨0, by decide⟩, ⟨0, by decide⟩, ⟨0, by decide⟩, ⟨0, by decide⟩,
   ⟨0, by decide⟩, ⟨0, by decide⟩⟩

/-- Second sample draw: desktop entry 15 (the first Edge profile), which
shares platform "Win32", memory 8 and concurrency 8 with entry 0. -/
def sampleChoice2 : ProfileChoice :=
  ⟨.desktop, ⟨15, by decide⟩, ⟨0, by decide⟩, ⟨0, by decide⟩, ⟨0, by decide⟩,
   ⟨0, by decide⟩, ⟨0, by decide⟩⟩

/-! ## Helper lemmas -/

lemma leBytes_length (k : Nat) : ∀ n, (leBytes k n).length = k := by
  induction k with
  | zero => intro n; rfl
  | succ k ih => intro n; simp [leBytes, ih]

lemma md5bytes_length (msg : List Nat) : (md5bytes msg).length = 16 := by
  simp [md5bytes, leBytes_length]

lemma bytesToHex_length (bs : List Nat) : (bytesToHex bs).length = 2 * bs.length := by
  show ((bs.map byteHex).flatten : List Char).length = 2 * bs.length
  induction bs with
  | nil => rfl
  | cons b t ih => simp [byteHex] at ih ⊢; omega

lemma md5hex_length (s : String) : (md5hex s).length = 32 := by
  rw [md5hex, bytesToHex_length, md5bytes_length]

/-- The runner loop survives any cancellation-free outcome stream: after
any number of passes the state is still `some _`. -/
lemma runnerRun_isSome (outs : Nat → PassOutcome) (urls : Nat → String)
    (h : ∀ n, outs n ≠ .cancel) :
    ∀ (n : Nat) (s0 : InstanceState), (runnerRun outs urls n s0).isSome := by
  intro n s0
  induction n with
  | zero => rfl
  | succ n ih =>
    rw [runnerRun]
    obtain ⟨sn, hsn⟩ := Option.isSome_iff_exists.mp ih
    rw [hsn]
    cases houts : outs n with
    | ok results => simp [runnerPass, runnerFinish]
    | err msg => simp [runnerPass, runnerFinish]
    | cancel => exact absurd houts (h n)

lemma chosenDevice_mem (c : ProfileChoice) :
    chosenDevice c ∈ DESKTOP_PROFILES ∨ chosenDevice c ∈ MOBILE_PROFILES ∨
      chosenDevice c ∈ TABLET_PROFILES := by
  obtain ⟨dt, di, mi, ti, li, ci, moi⟩ := c
  cases dt with
  | desktop => exact Or.inl (List.get_mem _ _ _)
  | mobile => exact Or.inr (Or.inl (List.get_mem _ _ _))
  | tablet => exact Or.inr (Or.inr (List.get_mem _ _ _))

/-! ## Claim theorems -/

/-- C1: a pass of the runner loop in which `run_once` raises increments
`runs` and `failures` by exactly one (and `successes` not at all), stores
the message truncated to 100 characters in `last_detail`, sets the status
to "error/restarting", sleeps the fixed 2 seconds, and the loop then goes
on: with no external cancellation it reaches every later pass. -/
theorem runner_error_pass (s : InstanceState) (url msg : String) :
    (∃ s', runnerPass (.err msg) url s = some (s', 2) ∧
      s'.runs = s.runs + 1 ∧ s'.failures = s.failures + 1 ∧
      s'.successes = s.successes ∧
      s'.last_detail = pyTake msg 100 ∧
      s'.status = "error/restarting") ∧
    (∀ (outs : Nat → PassOutcome) (urls : Nat → String),
      (∀ n, outs n ≠ .cancel) →
      ∀ (n : Nat) (s0 : InstanceState), (runnerRun outs urls n s0).isSome) := by
  exact ⟨⟨_, rfl, rfl, rfl, rfl, rfl, rfl⟩,
    fun outs urls h => runnerRun_isSome outs urls h⟩

/-- C1 witness: concrete error pass and a three-pass all-error run. -/
theorem runner_error_pass_witness :
    (∃ s', runnerPass (.err "boom") "u" (initState 1) = some (s', 2) ∧
      s'.runs = (initState 1).runs + 1 ∧
      s'.failures = (initState 1).failures + 1 ∧
      s'.successes = (initState 1).successes ∧
      s'.last_detail = pyTake "boom" 100 ∧
      s'.status = "error/restarting") ∧
    (runnerRun (fun _ => .err "boom") (fun _ => "u") 3 (initState 1)).isSome :=
  ⟨(runner_error_pass (initState 1) "u" "boom").1,
   (runner_error_pass (initState 1) "u" "boom").2 _ _ (fun _ => by decide) 3
     (initState 1)⟩

/-- C2: when the URL file reads successfully but no non-blank line remains,
`main` prints the error and exits with code 1; in particular the startup
never reaches the browser-launch stage (`proceed`). -/
theorem empty_urls_exit (content user_in : String)
    (h : parseUrls content = []) :
    mainStartup (.ok content) user_in = .exit 1 "No URLs found in the file" ∧
    ∀ urls instances,
      mainStartup (.ok content) user_in ≠ .proceed urls instances := by
  constructor
  · simp [mainStartup, h]
  · intro urls instances
    simp [mainStartup, h]

/-- C2 witness: a file of blank lines exits with code 1. -/
theorem empty_urls_exit_witness :
    mainStartup (.ok "  \n\t\n") "5" = .exit 1 "No URLs found in the file" :=
  (empty_urls_exit "  \n\t\n" "5" (by decide)).1

/-- C3: the instance prompt yields exactly `n` instance states when the
input parses to `n` in `[1, 50]`, and exactly one state for any other
input (non-numeric, or an integer out of range). -/
theorem instance_count_range :
    (∀ (user_in : String) (n : Int), pyInt (pyStrip user_in) = some n →
      1 ≤ n → n ≤ 50 → (instancesStates user_in).length = n.toNat) ∧
    (∀ user_in : String,
      (∀ n : Int, pyInt (pyStrip user_in) = some n → n < 1 ∨ 50 < n) →
      (instancesStates user_in).length = 1) := by
  constructor
  · intro user_in n hp h1 h50
    simp only [instancesStates, List.length_map, List.length_range,
      instanceCount, hp]
    have hin : ¬(n < 1 ∨ 50 < n) := by omega
    rw [if_neg hin]
  · intro user_in h
    cases hp : pyInt (pyStrip user_in) with
    | none => simp [instancesStates, instanceCount, hp]
    | some n =>
      have hout := h n hp
      simp only [instancesStates, List.length_map, List.length_range,
        instanceCount, hp]
      rw [if_pos hout]

/-- C3 witness: input "3" gives three instances, inputs "abc" and "99"
fall back to one. -/
theorem instance_count_range_witness :
    (instancesStates "3").length = (3 : Int).toNat ∧
    (instancesStates "abc").length = 1 ∧
    (instancesStates "99").length = 1 :=
  ⟨instance_count_range.1 "3" 3 (by decide) (by decide) (by decide),
   instance_count_range.2 "abc" (fun n hn =>
     (Option.some_ne_none n (hn.symm.trans rfl)).elim),
   instance_count_range.2 "99" (fun n hn => by
     have h99 := Option.some.inj ((rfl :
       pyInt (pyStrip "99") = some 99).symm.trans hn)
     have h99b : (99 : Int) = n := h99
     omega)⟩

/-- C5 counterexample: not every error leaves the process running with the
default exit code — an empty (or unreadable) `urls.txt` terminates the
process with exit code 1, and if both browser-launch attempts fail the
second exception is fatal, uncaught by the `KeyboardInterrupt`-only
handler. -/
theorem no_fatal_error_counterexample :
    mainStartup (.ok "") "1" = .exit 1 "No URLs found in the file" ∧
    mainStartup (.error "boom") "1" =
      .exit 1 ("Failed to read URL file: " ++ "boom") ∧
    browserLaunch (.error "no chromium") (.error "still no chromium") =
      .fatal "still no chromium" ∧
    (1 : Nat) ≠ 0 := by
  exact ⟨rfl, rfl, rfl, by decide⟩

/-- C5 amended: failures inside a runner pass are never fatal — every
`Exception` is caught and the loop reaches the next pass.  Two startup
error paths do exit with a non-default code: the URL-file checks exit
with code 1 (and with code 1 only) on an unreadable or empty `urls.txt`,
and, while a first browser-launch failure is caught and the launch
retried after reinstalling the browser, a failure of the retried launch
propagates uncaught and kills the process with exit code 1. -/
theorem no_fatal_error_amended :
    (∀ (outs : Nat → PassOutcome) (urls : Nat → String),
      (∀ n, outs n ≠ .cancel) →
      ∀ (n : Nat) (s0 : InstanceState), (runnerRun outs urls n s0).isSome) ∧
    (∀ (fileRead : Except String String) (user_in : String)
        (code : Nat) (msg : String),
      mainStartup fileRead user_in = .exit code msg →
      code = 1 ∧ ((∃ e, fileRead = .error e) ∨
        ∃ content, fileRead = .ok content ∧ parseUrls content = [])) ∧
    (∀ a2 : Except String Unit, browserLaunch (.ok ()) a2 = .launched) ∧
    (∀ e : String, browserLaunch (.error e) (.ok ()) = .launched) ∧
    (∀ e1 e2 : String,
      browserLaunch (.error e1) (.error e2) = .fatal e2) := by
  refine ⟨fun outs urls h => runnerRun_isSome outs urls h, ?_,
    fun a2 => rfl, fun e => rfl, fun e1 e2 => rfl⟩
  intro fileRead user_in code msg hexit
  cases fileRead with
  | error e =>
    simp only [mainStartup] at hexit
    cases hexit
    exact ⟨rfl, Or.inl ⟨e, rfl⟩⟩
  | ok content =>
    simp only [mainStartup] at hexit
    by_cases hurls : (parseUrls content).isEmpty
    · rw [if_pos hurls] at hexit
      cases hexit
      exact ⟨rfl, Or.inr ⟨content, rfl, List.isEmpty_iff.mp hurls⟩⟩
    · rw [if_neg hurls] at hexit
      cases hexit

/-- C5 amended witness: an all-error run keeps going; the empty-file exit
carries code 1 and stems from the empty URL list; a failed first launch
followed by a successful retry still launches. -/
theorem no_fatal_error_amended_witness :
    (runnerRun (fun _ => .err "x") (fun _ => "u") 2 (initState 1)).isSome ∧
    ((1 : Nat) = 1 ∧ ((∃ e, (Except.ok "" : Except String String) = .error e) ∨
      ∃ content, (Except.ok "" : Except String String) = .ok content ∧
        parseUrls content = [])) ∧
    browserLaunch (.error "no chromium") (.ok ()) = .launched :=
  ⟨no_fatal_error_amended.1 _ _ (fun _ => by decide) 2 (initState 1),
   no_fatal_error_amended.2.1 (.ok "") "1" 1 "No URLs found in the file" rfl,
   no_fatal_error_amended.2.2.2.1 "no chromium"⟩

/-- C8: the per-instance status starts "idle", is "running" while a pass
runs, ends each pass "idle" on success and "error/restarting" on a caught
exception — never any other value — and the loop has no terminal state:
only cancellation ends it. -/
theorem runner_status_cycle :
    (∀ id : Nat, (initState id).status = "idle") ∧
    (∀ (url : String) (s : InstanceState),
      (runnerStart url s).status = "running") ∧
    (∀ (url : String) (s : InstanceState) (results : List StepResult)
        (s' : InstanceState) (d : Nat),
      runnerPass (.ok results) url s = some (s', d) → s'.status = "idle") ∧
    (∀ (url msg : String) (s s' : InstanceState) (d : Nat),
      runnerPass (.err msg) url s = some (s', d) →
        s'.status = "error/restarting") ∧
    (∀ (o : PassOutcome) (url : String) (s s' : InstanceState) (d : Nat),
      runnerPass o url s = some (s', d) →
        s'.status = "idle" ∨ s'.status = "error/restarting") ∧
    (∀ (url : String) (s : InstanceState),
      runnerPass .cancel url s = none) ∧
    (∀ (outs : Nat → PassOutcome) (urls : Nat → String),
      (∀ n, outs n ≠ .cancel) →
      ∀ (n : Nat) (s0 : InstanceState), (runnerRun outs urls n s0).isSome) := by
  refine ⟨fun _ => rfl, fun _ _ => rfl, ?_, ?_, ?_, fun _ _ => rfl,
    fun outs urls h => runnerRun_isSome outs urls h⟩
  · intro url s results s' d h
    cases h
    rfl
  · intro url msg s s' d h
    cases h
    rfl
  · intro o url s s' d h
    cases o with
    | ok results => cases h; exact Or.inl rfl
    | err msg => cases h; exact Or.inr rfl
    | cancel => cases h

/-- C8 witness: concrete success and failure passes land on "idle" and
"error/restarting"; a concrete cancellation-free run keeps going. -/
theorem runner_status_cycle_witness :
    (initState 1).status = "idle" ∧
    (runnerStart "u" (initState 1)).status = "running" ∧
    ({ id := 1, runs := 1, successes := 1, current_step := "sleep 1s",
       last_url := "u", status := "idle" } : InstanceState).status = "idle" ∧
    ({ id := 1, runs := 1, failures := 1, current_step := "error recovery",
       last_url := "u", last_detail := "x",
       status := "error/restarting" } : InstanceState).status =
      "error/restarting" ∧
    (runnerRun (fun _ => .ok []) (fun _ => "u") 2 (initState 1)).isSome :=
  ⟨runner_status_cycle.1 1,
   runner_status_cycle.2.1 "u" (initState 1),
   runner_status_cycle.2.2.1 "u" (initState 1) [] _ 1 rfl,
   runner_status_cycle.2.2.2.1 "u" "x" (initState 1) _ 2 rfl,
   runner_status_cycle.2.2.2.2.2.2 _ _ (fun _ => by decide) 2 (initState 1)⟩

/-- C9: every non-cancelled pass increments `runs` by one and exactly one
of `successes`/`failures` by one, so from the initial state (all counters
zero) the invariant `runs = successes + failures` holds between any two
passes. -/
theorem runner_counter_invariant :
    (∀ (o : PassOutcome) (url : String) (s s' : InstanceState) (d : Nat),
      runnerPass o url s = some (s', d) →
      s'.runs = s.runs + 1 ∧
        s'.successes + s'.failures = s.successes + s.failures + 1) ∧
    (∀ (id : Nat) (outs : Nat → PassOutcome) (urls : Nat → String)
        (n : Nat) (s : InstanceState),
      runnerRun outs urls n (initState id) = some s →
      s.runs = s.successes + s.failures) := by
  have hpass : ∀ (o : PassOutcome) (url : String) (s s' : InstanceState)
      (d : Nat), runnerPass o url s = some (s', d) →
      s'.runs = s.runs + 1 ∧
        s'.successes + s'.failures = s.successes + s.failures + 1 := by
    intro o url s s' d h
    cases o with
    | ok results =>
      cases h
      exact ⟨rfl, by simp only [runnerStart]; omega⟩
    | err msg =>
      cases h
      exact ⟨rfl, by simp only [runnerStart]; omega⟩
    | cancel => cases h
  refine ⟨hpass, ?_⟩
  intro id outs urls n
  induction n with
  | zero =>
    intro s h
    cases h
    rfl
  | succ n ih =>
    intro s h
    rw [runnerRun] at h
    cases hrun : runnerRun outs urls n (initState id) with
    | none => rw [hrun] at h; cases h
    | some sn =>
      rw [hrun] at h
      simp only [] at h
      cases hpassres : runnerPass (outs n) (urls n) sn with
      | none => rw [hpassres] at h; cases h
      | some p =>
        rw [hpassres] at h
        simp only [] at h
        cases h
        have hinv := ih sn hrun
        have hstep := hpass (outs n) (urls n) sn p.1 p.2
          (by rw [hpassres])
        omega

/-- C9 witness: the invariant holds concretely at the initial state and
after one successful pass. -/
theorem runner_counter_invariant_witness :
    ((initState 1).runs = (initState 1).successes + (initState 1).failures) ∧
    ({ id := 1, runs := 1, successes := 1, current_step := "sleep 1s",
       last_url := "u", status := "idle" } : InstanceState).runs =
      (initState 1).runs + 1 :=
  ⟨runner_counter_invariant.2 1 (fun _ => .ok []) (fun _ => "u") 0
     (initState 1) rfl,
   (runner_counter_invariant.1 (.ok []) "u" (initState 1) _ 1 rfl).1⟩

lemma headers_ne_nil (locale user_agent : String) :
    generate_realistic_headers locale user_agent ≠ [] := by
  simp only [generate_realistic_headers]
  split <;> simp

lemma tls_version_fixed (platform user_agent : String) :
    (generate_tls_fingerprint platform user_agent).version = "TLSv1.3" := by
  simp only [generate_tls_fingerprint]
  repeat' split
  all_goals rfl

lemma webgl_total (platform : String) (is_mobile : Bool) (device_memory : Nat) :
    (generate_webgl_fingerprint platform is_mobile device_memory).vendor ≠ "" ∧
    (generate_webgl_fingerprint platform is_mobile device_memory).version =
      "WebGL 1.0" := by
  unfold generate_webgl_fingerprint
  cases is_mobile with
  | true =>
    cases hip : pyContains platform "iPhone" <;> simp [hip]
  | false =>
    cases hmac : pyContains platform "Mac" with
    | true => simp [hmac]
    | false =>
      cases hlin : pyContains platform "Linux" with
      | true => simp [hmac, hlin]
      | false =>
        have h3 : device_memory % 3 = 0 ∨ device_memory % 3 = 1 ∨
            device_memory % 3 = 2 := by omega
        rcases h3 with h | h | h <;> simp [hmac, hlin, gpu_options, h]

lemma all_device_entries_populated :
    ∀ d : DeviceProfile,
      (d ∈ DESKTOP_PROFILES ∨ d ∈ MOBILE_PROFILES ∨ d ∈ TABLET_PROFILES) →
      d.user_agent ≠ "" ∧ d.platform ≠ "" := by
  have h1 : ∀ d ∈ DESKTOP_PROFILES, d.user_agent ≠ "" ∧ d.platform ≠ "" := by
    decide
  have h2 : ∀ d ∈ MOBILE_PROFILES, d.user_agent ≠ "" ∧ d.platform ≠ "" := by
    decide
  have h3 : ∀ d ∈ TABLET_PROFILES, d.user_agent ≠ "" ∧ d.platform ≠ "" := by
    decide
  intro d hd
  rcases hd with hd | hd | hd
  · exact h1 d hd
  · exact h2 d hd
  · exact h3 d hd

lemma all_locale_entries_populated :
    ∀ p ∈ LOCALE_TZS, p.1 ≠ "" ∧ p.2 ≠ "" := by decide

/-- C4: every generated profile takes its platform, memory and core count
from one single entry of the static device tables. -/
theorem profile_from_single_entry (c : ProfileChoice) :
    ∃ d : DeviceProfile,
      (d ∈ DESKTOP_PROFILES ∨ d ∈ MOBILE_PROFILES ∨ d ∈ TABLET_PROFILES) ∧
      (random_profile c).platform = d.platform ∧
      (random_profile c).device_memory = d.device_memory ∧
      (random_profile c).hardware_concurrency = d.hardware_concurrency :=
  ⟨chosenDevice c, chosenDevice_mem c, rfl, rfl, rfl⟩

/-- C6: `random_profile` always succeeds with a fully-populated bundle —
non-empty user agent, platform, locale, timezone, headers, 32-hex-digit
canvas and audio fingerprints, colour scheme and motion values from their
candidate lists, a TLS record — and `generate_webgl_fingerprint` returns
a populated value on every branch. -/
theorem profile_always_populated :
    (∀ c : ProfileChoice,
      (random_profile c).user_agent ≠ "" ∧
      (random_profile c).platform ≠ "" ∧
      (random_profile c).locale ≠ "" ∧
      (random_profile c).timezone ≠ "" ∧
      (random_profile c).headers ≠ [] ∧
      (random_profile c).canvas_fingerprint.length = 32 ∧
      (random_profile c).stealth_script.audio_fp.length = 32 ∧
      (random_profile c).color_scheme ∈ color_schemes ∧
      (random_profile c).reduced_motion ∈ reduced_motions ∧
      (random_profile c).tls_fingerprint.version = "TLSv1.3") ∧
    (∀ (platform : String) (is_mobile : Bool) (device_memory : Nat),
      (generate_webgl_fingerprint platform is_mobile device_memory).vendor ≠
        "" ∧
      (generate_webgl_fingerprint platform is_mobile device_memory).version =
        "WebGL 1.0") := by
  refine ⟨fun c => ?_, fun p m dm => webgl_total p m dm⟩
  have hdev := all_device_entries_populated (chosenDevice c)
    (chosenDevice_mem c)
  have hloc := all_locale_entries_populated (LOCALE_TZS.get c.localeIdx)
    (List.get_mem _ _ _)
  exact ⟨hdev.1, hdev.2, hloc.1, hloc.2,
    headers_ne_nil _ _, md5hex_length _, md5hex_length _,
    List.get_mem _ _ _, List.get_mem _ _ _, tls_version_fixed _ _⟩

/-- C7: the locale and timezone of every profile come from one entry of
`LOCALE_TZS`, and `timezone_id` always equals `timezone`. -/
theorem locale_timezone_from_table (c : ProfileChoice) :
    ((random_profile c).locale, (random_profile c).timezone) ∈ LOCALE_TZS ∧
    (random_profile c).timezone_id = (random_profile c).timezone :=
  ⟨List.get_mem _ _ _, rfl⟩

/-- C10: the canvas fingerprint is a function of (platform, memory, cores)
alone, and the WebGL fingerprint of those plus the mobile flag: profiles
generated from draws agreeing on those device characteristics carry equal
fingerprints. -/
theorem fingerprints_deterministic (c1 c2 : ProfileChoice)
    (hp : (random_profile c1).platform = (random_profile c2).platform)
    (hm : (random_profile c1).device_memory =
      (random_profile c2).device_memory)
    (hc : (random_profile c1).hardware_concurrency =
      (random_profile c2).hardware_concurrency) :
    (random_profile c1).canvas_fingerprint =
      (random_profile c2).canvas_fingerprint ∧
    ((random_profile c1).is_mobile = (random_profile c2).is_mobile →
      (random_profile c1).webgl_fingerprint =
        (random_profile c2).webgl_fingerprint) := by
  have hp2 : (chosenDevice c1).platform = (chosenDevice c2).platform := hp
  have hm2 : (chosenDevice c1).device_memory =
    (chosenDevice c2).device_memory := hm
  have hc2 : (chosenDevice c1).hardware_concurrency =
    (chosenDevice c2).hardware_concurrency := hc
  constructor
  · show generate_canvas_fingerprint (chosenDevice c1).platform
      (chosenDevice c1).device_memory (chosenDevice c1).hardware_concurrency =
      generate_canvas_fingerprint (chosenDevice c2).platform
      (chosenDevice c2).device_memory (chosenDevice c2).hardware_concurrency
    rw [hp2, hm2, hc2]
  · intro him
    have him2 : (chosenDevice c1).is_mobile = (chosenDevice c2).is_mobile :=
      him
    show generate_webgl_fingerprint (chosenDevice c1).platform
      (chosenDevice c1).is_mobile (chosenDevice c1).device_memory =
      generate_webgl_fingerprint (chosenDevice c2).platform
      (chosenDevice c2).is_mobile (chosenDevice c2).device_memory
    rw [hp2, him2, hm2]

/-- C10 witness: desktop entries 0 and 15 share platform "Win32", memory 8
and concurrency 8, and indeed get equal fingerprints. -/
theorem fingerprints_deterministic_witness :
    (random_profile sampleChoice).canvas_fingerprint =
      (random_profile sampleChoice2).canvas_fingerprint ∧
    ((random_profile sampleChoice).is_mobile =
        (random_profile sampleChoice2).is_mobile →
      (random_profile sampleChoice).webgl_fingerprint =
        (random_profile sampleChoice2).webgl_fingerprint) :=
  fingerprints_deterministic sampleChoice sampleChoice2 (by decide)
    (by decide) (by decide)

end WebAuto
